import Mathlib

/-!
Verification of the CIF-to-crystallographic-model builder
(`iotbx/cif/builders.py`) against its natural-language specification.

The development shallowly embeds the builder classes: pure Python string
helpers become Lean functions on `List Char`/`String`, the parsed CIF block
becomes an explicit `Block` value, external crystallographic library calls
(`sgtbx`, `uctbx`, `cctbx.miller`) become oracle parameters bundled in
`SgLib`, and every fallible builder step returns `Except CifError _`.
-/

namespace CifB

/-! ## String helpers (models of the Python string operations used) -/

/-- Model of Python list/string prefix test: `pat` is a prefix of `s`. -/
def listStarts : List Char → List Char → Bool
  | [], _ => true
  | _ :: _, [] => false
  | a :: as, b :: bs => a == b && listStarts as bs

/-- Model of Python `pat in s` (substring containment). -/
def listHasSub (pat : List Char) : List Char → Bool
  | [] => listStarts pat []
  | c :: t => listStarts pat (c :: t) || listHasSub pat t

/-- Python `pat in s` on strings. -/
def strContains (s pat : String) : Bool := listHasSub pat.toList s.toList

/-- Python `s.endswith(suf)`. -/
def strEndsWith (s suf : String) : Bool :=
  listStarts suf.toList.reverse s.toList.reverse

/-- Fuel-driven worker for `strReplace`; one unit of fuel is consumed per
character of the subject, which suffices since every step drops at least one
character. -/
def listReplaceFuel (pat rep : List Char) : Nat → List Char → List Char
  | 0, s => s
  | _ + 1, [] => []
  | n + 1, c :: t =>
    if !pat.isEmpty && listStarts pat (c :: t) then
      rep ++ listReplaceFuel pat rep n (t.drop (pat.length - 1))
    else
      c :: listReplaceFuel pat rep n t

/-- Model of Python `s.replace(pat, rep)`: replace all non-overlapping
occurrences left to right (identity when `pat` is empty; the builder never
calls it with an empty pattern). -/
def strReplace (s pat rep : String) : String :=
  String.mk (listReplaceFuel pat.toList rep.toList s.toList.length s.toList)

/-- Model of Python `s.strip(c)` for a single strip character: remove all
leading and trailing occurrences of `c`. -/
def pyStripChar (s : String) (c : Char) : String :=
  String.mk ((((s.toList.dropWhile (· == c)).reverse.dropWhile (· == c)).reverse))

/-- Decimal digit sequence to a natural number. -/
def natOfDigits (cs : List Char) : Nat :=
  cs.foldl (fun a c => a * 10 + (c.toNat - 48)) 0

/-- A parsed Python float literal, kept in exact decimal form: the value is
`num / 10 ^ den10`. -/
structure PyFloat where
  num : Int
  den10 : Nat
deriving DecidableEq, Repr

/-- Model of the Python `float()` builtin on the literals the builder feeds
it: an optional sign, then digits with at most one decimal point and at
least one digit.  Returns `none` where `float()` raises `ValueError`. -/
def parseDecimal (s : String) : Option PyFloat :=
  let cs := s.toList
  let signAndRest : Int × List Char :=
    match cs with
    | c :: t =>
      if c == Char.ofNat 45 then (-1, t)
      else if c == Char.ofNat 43 then (1, t)
      else (1, cs)
    | [] => (1, [])
  let sign := signAndRest.1
  let body := signAndRest.2
  let intPart := body.takeWhile Char.isDigit
  let rest := body.dropWhile Char.isDigit
  match rest with
  | [] =>
    if intPart.isEmpty then none
    else some ⟨sign * (natOfDigits intPart : Nat), 0⟩
  | c :: frac =>
    if c == Char.ofNat 46 && frac.all Char.isDigit
        && !(intPart.isEmpty && frac.isEmpty) then
      some ⟨sign * ((natOfDigits intPart * 10 ^ frac.length
              + natOfDigits frac : Nat) : Int), frac.length⟩
    else none

/-- Model of the Python `int()` builtin on strings: optional sign then at
least one digit; `none` where `int()` raises `ValueError`. -/
def parseIntStr (s : String) : Option Int :=
  let cs := s.toList
  let signAndRest : Int × List Char :=
    match cs with
    | c :: t =>
      if c == Char.ofNat 45 then (-1, t)
      else if c == Char.ofNat 43 then (1, t)
      else (1, cs)
    | [] => (1, [])
  let body := signAndRest.2
  if body.isEmpty || !body.all Char.isDigit then none
  else some (signAndRest.1 * (body.foldl (fun a c => a * 10 + (c.toNat - 48 : Nat)) 0 : Nat))

/-- Embedding of `float_from_string` (builders.py:1032-1037): strip single
and double quotes, discard a trailing parenthesized uncertainty suffix
(`split('(')[0]`), then parse as a float.  `none` models the `ValueError`
the Python version lets escape. -/
def float_from_string (s : String) : Option PyFloat :=
  parseDecimal (String.mk
    (((pyStripChar (pyStripChar s (Char.ofNat 39)) (Char.ofNat 34)).toList.takeWhile
      (fun c => !(c == Char.ofNat 40)))))

/-! ## The CIF block data model -/

/-- A stored CIF value: a scalar data item, or one column of a loop. -/
inductive CifValue where
  | scalar (s : String)
  | column (ss : List String)
deriving DecidableEq, Repr

/-- A loop is an ordered association of tag names to columns. -/
abbrev Loop := List (String × List String)

/-- A parsed CIF block: ordered scalar/loose items plus its loops. -/
structure Block where
  items : List (String × CifValue)
  loops : List Loop
deriving DecidableEq, Repr

/-- First-match ordered association lookup (the ordered-dict `get`). -/
def lookupAssoc {α : Type} (l : List (String × α)) (k : String) : Option α :=
  match l with
  | [] => none
  | (k', v) :: t => if k' == k then some v else lookupAssoc t k

/-- Embedding of `cif_block.get(key)`: direct items first, then the loop columns. -/
def Block.get (b : Block) (k : String) : Option CifValue :=
  match lookupAssoc b.items k with
  | some v => some v
  | none =>
    match b.loops.findSome? (fun l => lookupAssoc l k) with
    | some col => some (.column col)
    | none => none

/-- Embedding of `builder_base.__equivalents__` (builders.py:75-101).  The
entry for `_space_group_IT_number` reproduces the source text exactly: the
tuple there lacks a comma between its second and third strings, so Python
string-literal concatenation fuses them into the single entry
`"_symmetry.Int_Tables_number_space_group.IT_number"`. -/
def equivalents : String → List String
  | "_space_group_symop_operation_xyz" =>
    ["_symmetry_equiv_pos_as_xyz", "_space_group_symop.operation_xyz",
     "_symmetry_equiv.pos_as_xyz"]
  | "_space_group_symop_id" =>
    ["_symmetry_equiv_pos_site_id", "_space_group_symop.id", "_symmetry_equiv.id"]
  | "_space_group_name_Hall" =>
    ["_symmetry_space_group_name_Hall", "_space_group.name_Hall",
     "_symmetry.space_group_name_Hall"]
  | "_space_group_name_H-M_alt" =>
    ["_symmetry_space_group_name_H-M", "_space_group.name_H-M_alt",
     "_symmetry.space_group_name_H-M"]
  | "_space_group_IT_number" =>
    ["_symmetry_Int_Tables_number",
     "_symmetry.Int_Tables_number_space_group.IT_number"]
  | "_cell_length_a" => ["_cell.length_a"]
  | "_cell_length_b" => ["_cell.length_b"]
  | "_cell_length_c" => ["_cell.length_c"]
  | "_cell_angle_alpha" => ["_cell.angle_alpha"]
  | "_cell_angle_beta" => ["_cell.angle_beta"]
  | "_cell_angle_gamma" => ["_cell.angle_gamma"]
  | "_cell_volume" => ["_cell.volume"]
  | "_refln_index_h" => ["_refln.index_h"]
  | "_refln_index_k" => ["_refln.index_k"]
  | "_refln_index_l" => ["_refln.index_l"]
  | _ => []

/-- Embedding of `builder_base.get_cif_item` (builders.py:103-109): the
canonical tag first, then each historical equivalent in declaration order,
else the caller-supplied default. -/
def get_cif_item (b : Block) (key : String) (dflt : Option CifValue) : Option CifValue :=
  match b.get key with
  | some v => some v
  | none =>
    match (equivalents key).findSome? b.get with
    | some v => some v
    | none => dflt

/-! ## Crystallographic domain types and the external-library oracles -/

/-- A parsed symmetry operator (`sgtbx.rt_mx`), identified by its parsed
source text; the algebra lives in the external library. -/
structure RtMx where
  src : String
deriving DecidableEq, Repr

/-- A space group as the builder can obtain one: from explicit operators,
a Hall symbol, a Hermann-Mauguin symbol, or an International Tables
number.  The group algebra itself belongs to the external `sgtbx`. -/
inductive SpaceGroup where
  | ofOps (ops : List RtMx)
  | ofHall (s : String)
  | ofHM (s : String)
  | ofNumber (s : String)
  | primitive (g : SpaceGroup)
deriving DecidableEq, Repr

/-- A unit cell value as returned by the external `uctbx`. -/
structure UnitCell where
  params : List PyFloat
deriving DecidableEq, Repr

/-- Model of `crystal.symmetry`: a nullable space group and a nullable unit cell. -/
structure CrystalSymmetry where
  spaceGroup : Option SpaceGroup
  unitCell : Option UnitCell
deriving DecidableEq, Repr

/-- The error outcomes of the builders (each `CifBuilderError` raise site,
plus the uncaught Python exceptions the source lets escape). -/
inductive CifError where
  | symOpParse (op : String)        -- "Error interpreting symmetry operator"
  | symOpId (s : String)            -- "Error interpreting symmetry operator id"
  | assertionFailed                 -- the bare `assert len(sym_op_ids) == len(sym_ops)`
  | missingSymmetry                 -- "No symmetry instructions could be extracted..."
  | malformedCellParameter (tag : String) -- "...cannot be declared in a looped list"
  | missingCell                     -- "Unit cell parameters not found in the cif file"
  | invalidCellParameters           -- "Invalid unit cell parameters are given"
  | invalidUnitCell                 -- RuntimeError "cctbx Error: Unit cell" rewrapped
  | uncaughtValueError              -- float_from_string ValueError escaping uncaught
  | uncaughtInferError              -- infer_unit_cell_from_symmetry failure, uncaught
  | incompleteCell                  -- "Not all unit cell parameters are given..."
  | incompatibleSymmetry            -- "Space group is incompatible with unit cell..."
  | adpParse                        -- "Error interpreting ADPs"
  | noCoordinates                   -- "No atomic coordinates could be found"
  | noReflectionData                -- "No reflection data present in cif block"
  | missingIndices (tag : String)   -- "Miller indices missing from current CIF block (%s)"
  | invalidIndex (axis : String)    -- "Invalid item for Miller index %s: ..."
  | invalidIdValue (key : String)   -- "Invalid integer value for %s: ..." (builders.py:990)
deriving DecidableEq, Repr

/-- The external crystallographic library surface the builder calls into,
as fallible oracles (`none` models the library raising). -/
structure SgLib where
  hallCtor : String → Option SpaceGroup    -- sgtbx.space_group(hall)
  hmCtor : String → Option SpaceGroup      -- sgtbx.space_group_info(symbol=..).group()
  numCtor : String → Option SpaceGroup     -- sgtbx.space_group_info(number=..).group()
  parseOp : String → Option RtMx           -- sgtbx.rt_mx(op)
  groupFromOps : List RtMx → SpaceGroup    -- space_group(); expand_smx over the ops
  mkUnitCell : List PyFloat → Option UnitCell -- uctbx.unit_cell(vals)
  inferCell : List PyFloat → SpaceGroup → Option UnitCell -- uctbx.infer_unit_cell_from_symmetry
  isCompatible : SpaceGroup → UnitCell → Bool -- space_group.is_compatible_unit_cell
  primitiveSetting : SpaceGroup → SpaceGroup  -- info().primitive_setting().group()

/-! ## Symmetry builder (`crystal_symmetry_builder.__init__`) -/

/-- The `x not in (None, '?')` presence test the source applies to the Hall
and H-M symbols and the IT number (a loop column is never equal to `"?"`). -/
def isAbsentOrQ : Option CifValue → Bool
  | none => true
  | some (.scalar s) => s == "?"
  | some (.column _) => false

/-- Apply a space-group constructor inside `try ... except Exception: pass`:
a failure (including a non-string loop-column argument) leaves the previous
value in place. -/
def tryCtorAssign (ctor : String → Option SpaceGroup) (v : Option CifValue)
    (prev : Option SpaceGroup) : Option SpaceGroup :=
  match v with
  | some (.scalar s) =>
    match ctor s with
    | some g => some g
    | none => prev
  | _ => prev

/-- Embedding of builders.py:151-166, the space-group resolution used when
no explicit symmetry-operator list is present.  Line 161 of the source
reads `if space_group is not None and sg_number not in (None, '?')`, so the
IT-number constructor runs only when a Hall or H-M symbol already produced
a group (and then overrides it); this embedding reproduces that test. -/
def resolveSpaceGroupFromSymbols (lib : SgLib) (hall hm num : Option CifValue)
    (strict : Bool) : Except CifError (Option SpaceGroup) :=
  let sg1 : Option SpaceGroup :=
    if !isAbsentOrQ hall then tryCtorAssign lib.hallCtor hall none else none
  let sg2 : Option SpaceGroup :=
    if sg1.isNone && !isAbsentOrQ hm then tryCtorAssign lib.hmCtor hm sg1 else sg1
  let sg3 : Option SpaceGroup :=
    if sg2.isSome && !isAbsentOrQ num then tryCtorAssign lib.numCtor num sg2 else sg2
  if sg3.isNone && strict then .error .missingSymmetry else .ok sg3

/-- A CIF value as the per-operator loop body sees it: a lone scalar is
wrapped into a one-element list (builders.py:122-123, 125-126). -/
def toColumn : CifValue → List String
  | .scalar s => [s]
  | .column ss => ss

/-- Embedding of the per-operator loop of builders.py:131-150: parse each
operator (raising on a parse error), resolve its identifier (1-based
position when no id column is given, else the parsed integer, raising on a
bad integer), and collect the operators for group expansion. -/
def symOpsLoop (lib : SgLib) : List String → Option (List String) →
    Except CifError (List RtMx)
  | [], _ => .ok []
  | op :: rest, ids =>
    match lib.parseOp op with
    | none => .error (.symOpParse op)
    | some s =>
      let step : Except CifError Unit :=
        match ids with
        | none => .ok ()
        | some l =>
          match l.head? with
          | some idStr =>
            match parseIntStr idStr with
            | some _ => .ok ()
            | none => .error (.symOpId idStr)
          | none => .ok ()
      match step with
      | .error e => .error e
      | .ok _ =>
        match symOpsLoop lib rest (ids.map (List.drop 1)) with
        | .error e => .error e
        | .ok t => .ok (s :: t)

/-- Embedding of builders.py:121-150: the explicit-operator branch.  The
bare `assert len(sym_op_ids) == len(sym_ops)` becomes an
`assertionFailed` error. -/
def symOpsStage (lib : SgLib) (ops : List String) (ids : Option (List String)) :
    Except CifError SpaceGroup :=
  match ids with
  | some l =>
    if l.length != ops.length then .error .assertionFailed
    else
      match symOpsLoop lib ops ids with
      | .error e => .error e
      | .ok parsed => .ok (lib.groupFromOps parsed)
  | none =>
    match symOpsLoop lib ops none with
    | .error e => .error e
    | .ok parsed => .ok (lib.groupFromOps parsed)

/-- The complete space-group stage of `crystal_symmetry_builder.__init__`
(builders.py:117-166): explicit operators when present, otherwise the
Hall/H-M/IT-number symbols. -/
def spaceGroupStage (lib : SgLib) (b : Block) (strict : Bool) :
    Except CifError (Option SpaceGroup) :=
  match get_cif_item b "_space_group_symop_operation_xyz" none with
  | some v =>
    match symOpsStage lib (toColumn v)
        ((get_cif_item b "_space_group_symop_id" none).map toColumn) with
    | .error e => .error e
    | .ok g => .ok (some g)
  | none =>
    resolveSpaceGroupFromSymbols lib
      (get_cif_item b "_space_group_name_Hall" none)
      (get_cif_item b "_space_group_name_H-M_alt" none)
      (get_cif_item b "_space_group_IT_number" none)
      strict

/-- The six cell-parameter tags in the order the source examines them. -/
def cellTags : List String :=
  ["_cell_length_a", "_cell_length_b", "_cell_length_c",
   "_cell_angle_alpha", "_cell_angle_beta", "_cell_angle_gamma"]

/-- The `isinstance(item, flex.std_string)` test: the item is a loop column. -/
def isLoopColumn : Option CifValue → Bool
  | some (.column _) => true
  | _ => false

/-- Embedding of builders.py:167-172: fetch the three cell lengths and
reject (in order a, b, c) any that is declared as a loop column. -/
def checkedLengths (b : Block) : Except CifError (List (Option CifValue)) :=
  let ia := get_cif_item b "_cell_length_a" none
  let ib := get_cif_item b "_cell_length_b" none
  let ic := get_cif_item b "_cell_length_c" none
  if isLoopColumn ia then .error (.malformedCellParameter "_cell_length_a")
  else if isLoopColumn ib then .error (.malformedCellParameter "_cell_length_b")
  else if isLoopColumn ic then .error (.malformedCellParameter "_cell_length_c")
  else .ok [ia, ib, ic]

/-- The `"?"`-to-90-degrees enumeration default of builders.py:178-179. -/
def angleValue (item : Option CifValue) : Option CifValue :=
  if item == some (.scalar "?") then some (.scalar "90") else item

/-- Embedding of builders.py:173-180 for one angle (the source builds the
tag as `"_cell_angle_" + s`; here the concatenated tag is passed in):
reject a loop column, and map the `"?"` placeholder to the enumeration
default 90 degrees. -/
def angleResolve (b : Block) (tag : String) : Except CifError (Option CifValue) :=
  let item := get_cif_item b tag none
  if isLoopColumn item then .error (.malformedCellParameter tag)
  else .ok (angleValue item)

/-- The resolved six-entry cell item list (builders.py:167-180). -/
def cellItems (b : Block) : Except CifError (List (Option CifValue)) :=
  match checkedLengths b with
  | .error e => .error e
  | .ok lens =>
    match angleResolve b "_cell_angle_alpha" with
    | .error e => .error e
    | .ok a =>
      match angleResolve b "_cell_angle_beta" with
      | .error e => .error e
      | .ok bta =>
        match angleResolve b "_cell_angle_gamma" with
        | .error e => .error e
        | .ok g => .ok (lens ++ [a, bta, g])

/-- Apply `float_from_string` to one resolved cell item. -/
def parseItem : Option CifValue → Option PyFloat
  | some (.scalar s) => float_from_string s
  | _ => none

/-- Embedding of builders.py:181-204: the cell-parameter trichotomy.
All six absent: null cell (fatal under strict).  All six present: parse
(`ValueError` → "Invalid unit cell parameters"), then construct the cell
(library failure → "cctbx Error: Unit cell" rewrapped).  Some present and
a space group known: infer the rest from the group (the parse and the
inference run outside any `try`, so their failures escape uncaught).
Otherwise: "Not all unit cell parameters are given". -/
def resolveCell (lib : SgLib) (b : Block) (strict : Bool)
    (sg : Option SpaceGroup) : Except CifError (Option UnitCell) :=
  match cellItems b with
  | .error e => .error e
  | .ok items =>
    let ic := items.count none
    if ic == 6 then
      if strict then .error .missingCell else .ok none
    else if ic == 0 then
      match items.mapM parseItem with
      | none => .error .invalidCellParameters
      | some vals =>
        match lib.mkUnitCell vals with
        | none => .error .invalidUnitCell
        | some c => .ok (some c)
    else
      match sg with
      | some g =>
        match (items.filterMap id).mapM (fun v => parseItem (some v)) with
        | none => .error .uncaughtValueError
        | some vals =>
          match lib.inferCell vals g with
          | none => .error .uncaughtInferError
          | some c => .ok (some c)
      | none => .error .incompleteCell

/-- Embedding of builders.py:205-216: the compatibility check with a single
primitive-setting retry, and the final `crystal.symmetry` value. -/
def compatStage (lib : SgLib) (sg : Option SpaceGroup) (cell : Option UnitCell) :
    Except CifError CrystalSymmetry :=
  match sg, cell with
  | some g, some c =>
    if lib.isCompatible g c then .ok ⟨some g, some c⟩
    else
      let g2 := lib.primitiveSetting g
      if lib.isCompatible g2 c then .ok ⟨some g2, some c⟩
      else .error .incompatibleSymmetry
  | _, _ => .ok ⟨sg, cell⟩

/-- Embedding of `crystal_symmetry_builder.__init__` (builders.py:114-216). -/
def buildSymmetry (lib : SgLib) (b : Block) (strict : Bool) :
    Except CifError CrystalSymmetry :=
  match spaceGroupStage lib b strict with
  | .error e => .error e
  | .ok sg =>
    match resolveCell lib b strict sg with
    | .error e => .error e
    | .ok cell => compatStage lib sg cell

/-! ## Structure builder: the anisotropic-ADP resolution fragment
(`crystal_structure_builder.__init__`, builders.py:258-285) -/

/-- The six anisotropic U tags in source order (11, 22, 33, 12, 13, 23). -/
def anisoUTags : List String :=
  ["_atom_site_aniso_U_11", "_atom_site_aniso_U_22", "_atom_site_aniso_U_33",
   "_atom_site_aniso_U_12", "_atom_site_aniso_U_13", "_atom_site_aniso_U_23"]

/-- The six anisotropic B tags in source order. -/
def anisoBTags : List String :=
  ["_atom_site_aniso_B_11", "_atom_site_aniso_B_22", "_atom_site_aniso_B_33",
   "_atom_site_aniso_B_12", "_atom_site_aniso_B_13", "_atom_site_aniso_B_23"]

/-- Embedding of `flex_std_string_else_none` (builders.py:1026-1030): keep the value only
when it is a loop column. -/
def flex_std_string_else_none : Option CifValue → Option (List String)
  | some (.column ss) => some ss
  | _ => none

/-- How the ADP resolution of builders.py:260-285 ends. -/
inductive AnisoOutcome where
  /-- `_atom_site_aniso_label` absent (or not a column): no aniso handling. -/
  | absent
  /-- All six components absent: `adps = None`, silently skipped. -/
  | allMissing
  /-- Some but not all six components present: the source constructs
  `CifBuilderError("Some ADP items are missing")` on line 272 but never
  raises it, so execution continues with the partial column list. -/
  | partialMissing (haveBs : Bool) (nMissing : Nat)
  /-- All six present: rows not made entirely of `"?"` are kept and parsed. -/
  | resolved (labels : List String) (cols : List (List PyFloat)) (haveBs : Bool)
deriving DecidableEq, Repr

/-- Keep the entries of `xs` selected by the parallel boolean mask
(`flex` array `select`). -/
def selectBy {α : Type} : List Bool → List α → List α
  | true :: ms, x :: xs => x :: selectBy ms xs
  | false :: ms, _ :: xs => selectBy ms xs
  | _, _ => []

/-- The row mask of builders.py:274-279: a row survives unless all six of
its components equal `"?"`. -/
def anisoSelMask (cols : List (List String)) (n : Nat) : List Bool :=
  (List.range n).map (fun i => !(cols.all (fun c => c.getD i "" == "?")))

/-- Embedding of the ADP resolution (builders.py:258-285).  The columns are
fetched with plain `cif_block.get`; when any U component is missing the
whole set is refetched as B components; the all-missing and the
partial-missing cases end as documented on `AnisoOutcome`. -/
def resolveAniso (b : Block) : Except CifError AnisoOutcome :=
  match flex_std_string_else_none (b.get "_atom_site_aniso_label") with
  | none => .ok .absent
  | some lbls =>
    let adpsU := anisoUTags.map (fun t => (b.get t).map toColumn)
    let picked : List (Option (List String)) × Bool :=
      if 0 < adpsU.count none then
        (anisoBTags.map (fun t => (b.get t).map toColumn), true)
      else (adpsU, false)
    let adps := picked.1
    let haveBs := picked.2
    if adps.count none == 6 then .ok .allMissing
    else if 0 < adps.count none then
      -- line 272: `CifBuilderError("Some ADP items are missing")` is
      -- constructed without `raise`; the builder carries on.
      .ok (.partialMissing haveBs (adps.count none))
    else
      let cols := adps.map (fun o => o.getD [])
      let n := (cols.headD []).length
      let mask := anisoSelMask cols n
      let keptLabels := selectBy mask lbls
      match cols.mapM (fun c => (selectBy mask c).mapM parseDecimal) with
      | none => .error .adpParse
      | some qcols => .ok (.resolved keptLabels qcols haveBs)

/-! ## Reflection array builder fragments (`miller_array_builder`) -/

/-- An (h, k, l) Miller index. -/
structure MillerIdx where
  h : Int
  k : Int
  l : Int
deriving DecidableEq, Repr

/-- Negate a Miller index (`-array.indices()`). -/
def negIdx (i : MillerIdx) : MillerIdx := ⟨-i.h, -i.k, -i.l⟩

/-- X-ray observation type tags (`xray.intensity()` / `xray.amplitude()`). -/
inductive ObsType where
  | intensity
  | amplitude
deriving DecidableEq, Repr

/-- The data kind of a miller array's data channel (`flex.int`,
`flex.double`, complex, or an unparsed string column). -/
inductive DataKind where
  | intK
  | realK
  | cplxK
  | strK
deriving DecidableEq, Repr

/-- A miller array as the builder manipulates one: indices, a data channel
(numeric values as rationals, tagged with their kind), an optional sigma
channel, provenance labels, the anomalous flag and the observation type. -/
structure MArray where
  indices : List MillerIdx
  data : List ℚ
  sigmas : Option (List ℚ)
  kind : DataKind
  labels : List String
  anomalous : Bool
  obsType : Option ObsType
deriving DecidableEq, Repr

/-- Model of `libtbx.containers.OrderedSet` over a label list: insertion order kept,
later duplicates dropped. -/
def orderedSetAux (seen : List String) : List String → List String
  | [] => []
  | x :: t =>
    if seen.contains x then orderedSetAux seen t
    else x :: orderedSetAux (x :: seen) t

/-- Order-preserving duplicate removal (`list(OrderedSet(...))`). -/
def orderedSet (l : List String) : List String := orderedSetAux [] l

/-- Embedding of the anomalous pair combination (builders.py:568-576):
negate the minus side's indices, concatenate onto the plus side, raise the
anomalous flag, union the labels through an `OrderedSet`, and keep the plus
side's observation type. -/
def mergeArrays (pa ma : MArray) : MArray :=
  let ma' := { ma with indices := ma.indices.map negIdx }
  { indices := pa.indices ++ ma'.indices
    data := pa.data ++ ma'.data
    sigmas :=
      match pa.sigmas, ma'.sigmas with
      | some s1, some s2 => some (s1 ++ s2)
      | _, _ => none
    kind := pa.kind
    labels := orderedSet (pa.labels ++ ma'.labels)
    anomalous := true
    obsType := pa.obsType }

/-- The builder's `self._arrays`: an insertion-ordered map from composite
key to miller array. -/
abbrev Coll := List (String × MArray)

/-- Model of `dict.pop(key)`: drop the entry stored under `k` (keys are unique). -/
def removeKey (c : Coll) (k : String) : Coll :=
  match c with
  | [] => []
  | (k', v) :: t => if k' == k then t else (k', v) :: removeKey t k

/-- Model of `dict.setdefault(key, value)`: insert at the end only when absent. -/
def setdefault (c : Coll) (k : String) (v : MArray) : Coll :=
  if (lookupAssoc c k).isSome then c else c ++ [(k, v)]

/-- The classic merge loop's key filter (builders.py:557-558). -/
def classicCond (key : String) : Bool :=
  strEndsWith key "_minus" || strContains key "_minus_"
    || strEndsWith key "_plus" || strContains key "_plus_"

/-- The classic merge loop's plus/minus counterpart keys
(builders.py:559-564): `(plus_key, minus_key)`. -/
def pmKeysClassic (key : String) : Option (String × String) :=
  if strContains key "_minus" then some (strReplace key "_minus" "_plus", key)
  else if strContains key "_plus" then some (key, strReplace key "_plus" "_minus")
  else none

/-- The new-strategy merge loop's key filter (builders.py:733-734), which
also admits bare `-` / `+` markers. -/
def newCond (key : String) : Bool :=
  strEndsWith key "_minus" || strContains key "_minus_" || strContains key "-"
    || strEndsWith key "_plus" || strContains key "_plus_" || strContains key "+"

/-- The new-strategy counterpart keys (builders.py:735-746). -/
def pmKeysNew (key : String) : Option (String × String) :=
  if strContains key "_minus" then some (strReplace key "_minus" "_plus", key)
  else if strContains key "-" then some (strReplace key "-" "+", key)
  else if strContains key "_plus" then some (key, strReplace key "_plus" "_minus")
  else if strContains key "+" then some (key, strReplace key "+" "-")
  else none

/-- One iteration of the merge loop for the key `key`: when the key matches
the filter and both counterpart keys are present, pop both, merge, and
`setdefault` the result back under `key`; otherwise leave the collection
alone. -/
def mergeOneG (cond : String → Bool) (pm : String → Option (String × String))
    (acc : Coll) (key : String) : Coll :=
  if cond key then
    match pm key with
    | some (pk, mk) =>
      match lookupAssoc acc pk, lookupAssoc acc mk with
      | some pa, some ma =>
        setdefault (removeKey (removeKey acc pk) mk) key (mergeArrays pa ma)
      | _, _ => acc
    | none => acc
  else acc

/-- The merge pass: iterate the keys of a snapshot of the collection
(`self._arrays.copy()`) while updating the live collection. -/
def mergeStepG (cond : String → Bool) (pm : String → Option (String × String))
    (c : Coll) : Coll :=
  (c.map Prod.fst).foldl (mergeOneG cond pm) c

/-- The classic anomalous-pair merge pass (builders.py:556-577). -/
def mergeClassic (c : Coll) : Coll := mergeStepG classicCond pmKeysClassic c

/-- The new-strategy anomalous-pair merge pass (builders.py:732-759). -/
def mergeNew (c : Coll) : Coll := mergeStepG newCond pmKeysNew c

/-- Key `k` of collection `c` has no surviving plus/minus counterpart:
whenever the merge loop would compute counterpart keys for it, they are not
both present. -/
def noSurvivingPairB (pm : String → Option (String × String)) (c : Coll)
    (k : String) : Bool :=
  match pm k with
  | some (pk, mk) => !((lookupAssoc c pk).isSome && (lookupAssoc c mk).isSome)
  | none => true

/-! ## Sigma pairing: the size-mismatch policy of the two strategies -/

/-- Embedding of `check_array_sizes` (builders.py:965-970) without the
warning side effect: the two arrays have equal size. -/
def check_array_sizes (a b : MArray) : Bool := a.data.length == b.data.length

/-- Embedding of the classic value/sigma pairing (builders.py:429-440):
when the sizes agree the sigma channel is attached and the sigma label
appended to the provenance; otherwise the pairing is skipped (`continue`)
and a warning naming both keys is emitted (returned here as data). -/
def classicAttachSigmas (base sig : MArray) (key sigmasLabel : String) :
    Option MArray × List (String × String) :=
  if check_array_sizes base sig then
    (some { base with
        sigmas := some sig.data,
        labels := base.labels ++ [sigmasLabel] }, [])
  else (none, [(key, sigmasLabel)])

/-- Embedding of the new-strategy value/sigma pairing (builders.py:653-670):
`millarr.set_sigmas(sigmas.data())` runs unconditionally, with no size
check and no warning; the labels are replaced by the data/sigma pair (plus
the multiplex suffix when non-empty). -/
def newAttachSigmas (millarr sigmas : MArray) (datlabl siglabl labelsuffix : String) :
    MArray × List (String × String) :=
  ({ millarr with
      sigmas := some sigmas.data,
      labels :=
        if labelsuffix != "" then [datlabl, siglabl, labelsuffix]
        else [datlabl, siglabl] }, [])

/-! ## Observation typing and integer promotion (builders.py:526-549) -/

/-- Embedding of the local `rstrip_substrings` (builders.py:526-531):
strip each suffix once, in list order, skipping empty suffixes. -/
def rstrip1 (s : String) (sub : String) : String :=
  if sub == "" then s
  else if strEndsWith s sub then
    String.mk (s.toList.take (s.toList.length - sub.toList.length))
  else s

/-- The full `rstrip_substrings(string, substrings)` fold. -/
def rstrip_substrings (s : String) (subs : List String) : String :=
  subs.foldl rstrip1 s

/-- The data channel is a real or an integer array. -/
def isRealOrInt : DataKind → Bool
  | .realK => true
  | .intK => true
  | _ => false

/-- Embedding of the observation classification (builders.py:535-543):
intensity stems first, else a trailing `F` for amplitudes, in both cases
only over real or integer data. -/
def classifyObs (stripped : String) (kind : DataKind) : Option ObsType :=
  if (strEndsWith stripped "F_squared" || strEndsWith stripped "intensity"
      || strEndsWith stripped ".I" || strEndsWith stripped "_I")
      && isRealOrInt kind then
    some .intensity
  else if strEndsWith stripped "F" && isRealOrInt kind then
    some .amplitude
  else none

/-- Embedding of the integer-promotion guard (builders.py:544-549).  The
source condition reads `array.is_xray_amplitude_array() or
array.is_xray_amplitude_array()` — the same amplitude test twice; the
intensity case is never tested, and this embedding reproduces that. -/
def promotionStep (obs : Option ObsType) (kind : DataKind) : DataKind :=
  if obs == some ObsType.amplitude || obs == some ObsType.amplitude then
    if kind == DataKind.intK then .realK else kind
  else kind

/-- Pair an assigned observation type with the promoted data kind. -/
def obsAndPromote (obs : Option ObsType) (kind : DataKind) :
    Option ObsType × DataKind :=
  (obs, promotionStep obs kind)

/-- The observation-typing step for one array: strip the known suffixes
from its key (builders.py:533-534), classify, then apply the
integer-promotion guard.  Returns the assigned observation type and the
resulting data kind. -/
def observationTypingStep (key keySuffix : String) (kind : DataKind) :
    Option ObsType × DataKind :=
  obsAndPromote
    (classifyObs
      (rstrip_substrings key [keySuffix, "_au", "_meas", "_calc", "_plus", "_minus"])
      kind)
    kind

/-! ## Block frame effect of the two strategies -/

/-- A total, always-succeeding instance of the external library surface:
each constructor records its provenance, the unit-cell constructors accept
every parameter list, and every cell is compatible with every group. -/
def demoLib : SgLib where
  hallCtor := fun s => some (.ofHall s)
  hmCtor := fun s => some (.ofHM s)
  numCtor := fun s => some (.ofNumber s)
  parseOp := fun s => some ⟨s⟩
  groupFromOps := fun ops => .ofOps ops
  mkUnitCell := fun vals => some ⟨vals⟩
  inferCell := fun vals _ => some ⟨vals⟩
  isCompatible := fun _ _ => true
  primitiveSetting := fun g => .primitive g

/-- A block whose only symmetry information is an International Tables
number. -/
def blockOnlyITNumber : Block :=
  ⟨[("_space_group_IT_number", .scalar "19")], []⟩

/-- A block with an atom-site anisotropic loop carrying five of the six B
components (`_atom_site_aniso_B_23` is missing). -/
def blockPartialB : Block :=
  ⟨[], [[("_atom_site_aniso_label", ["C1", "C2"]),
         ("_atom_site_aniso_B_11", ["0.1", "0.2"]),
         ("_atom_site_aniso_B_22", ["0.1", "0.2"]),
         ("_atom_site_aniso_B_33", ["0.1", "0.2"]),
         ("_atom_site_aniso_B_12", ["0.0", "0.0"]),
         ("_atom_site_aniso_B_13", ["0.0", "0.0"])]]⟩

/-- A block with an atom-site anisotropic loop carrying only
`_atom_site_aniso_U_11` of the six U components, and no B components. -/
def blockPartialU : Block :=
  ⟨[], [[("_atom_site_aniso_label", ["C1", "C2"]),
         ("_atom_site_aniso_U_11", ["0.1", "0.2"])]]⟩

/-- A two-entry real-valued miller array. -/
def arrTwoRows : MArray :=
  ⟨[⟨1, 0, 0⟩, ⟨2, 0, 0⟩], [1, 2], none, .realK, ["_refln.F_meas_au"], false, none⟩

/-- A three-entry real-valued miller array (sigma candidate). -/
def sigThreeRows : MArray :=
  ⟨[⟨1, 0, 0⟩, ⟨2, 0, 0⟩, ⟨3, 0, 0⟩], [5, 6, 7], none, .realK,
   ["_refln.F_meas_sigma_au"], false, none⟩

/-- The already-merged Scenario-D collection: one anomalous array stored
under the surviving plus-marked key. -/
def mergedCollD : Coll :=
  [("_refln.pdbx_F_plus",
    ⟨[⟨1, 0, 0⟩, ⟨2, 0, 0⟩, ⟨3, 0, 0⟩, ⟨-1, 0, 0⟩, ⟨-2, 0, 0⟩, ⟨-3, 0, 0⟩],
     [1, 2, 3, 4, 5, 6], none, .realK,
     ["_refln.pdbx_F_plus", "_refln.pdbx_F_minus"], true, some .amplitude⟩)]

/-- The plus-side Scenario-D array: three rows of `_refln.pdbx_F_plus`. -/
def arrPlusD : MArray :=
  ⟨[⟨1, 0, 0⟩, ⟨2, 0, 0⟩, ⟨3, 0, 0⟩], [10, 11, 12], none, .realK,
   ["_refln.pdbx_F_plus"], false, some .amplitude⟩

/-- The minus-side Scenario-D array: three rows of `_refln.pdbx_F_minus`. -/
def arrMinusD : MArray :=
  ⟨[⟨1, 0, 0⟩, ⟨2, 0, 0⟩, ⟨3, 0, 0⟩], [20, 21, 22], none, .realK,
   ["_refln.pdbx_F_minus"], false, some .amplitude⟩

/-- The first of the six cell-parameter tags (in the order the source
checks them) whose resolved item is a loop column. -/
def firstColumnCellTag (b : Block) : Option String :=
  cellTags.find? (fun tg => isLoopColumn (get_cif_item b tg none))

/-- A block whose `_cell_length_b` is a loop column. -/
def blockColumnCell : Block :=
  ⟨[("_cell_length_b", .column ["10", "10"])], []⟩

/-- A block with all six cell parameters as quoted/uncertainty-suffixed
scalars. -/
def blockFullCell : Block :=
  ⟨[("_cell_length_a", .scalar "10"), ("_cell_length_b", .scalar "11"),
    ("_cell_length_c", .scalar "12"), ("_cell_angle_alpha", .scalar "90"),
    ("_cell_angle_beta", .scalar "91"), ("_cell_angle_gamma", .scalar "92")], []⟩

/-- A block carrying only `_cell_length_a` of the six cell parameters. -/
def blockPartialCell : Block :=
  ⟨[("_cell_length_a", .scalar "10")], []⟩

/-! ## Claims -/

/-- C10: the alias fallback list for `_space_group_IT_number` holds exactly
the two entries `_symmetry_Int_Tables_number` and the comma-less
concatenation `_symmetry.Int_Tables_number_space_group.IT_number`, so a
block whose only International-Tables-number tag is
`_symmetry.Int_Tables_number` or `_space_group.IT_number` (hence stores
none of the three tags the lookup consults) makes `get_cif_item` return the
caller-supplied default. -/
theorem c10_it_number_alias_list :
    equivalents "_space_group_IT_number" =
      ["_symmetry_Int_Tables_number",
       "_symmetry.Int_Tables_number_space_group.IT_number"]
    ∧ ∀ (b : Block) (dflt : Option CifValue),
        b.get "_space_group_IT_number" = none →
        b.get "_symmetry_Int_Tables_number" = none →
        b.get "_symmetry.Int_Tables_number_space_group.IT_number" = none →
        get_cif_item b "_space_group_IT_number" dflt = dflt := by
  refine ⟨rfl, ?_⟩
  intro b dflt h1 h2 h3
  simp [get_cif_item, equivalents, List.findSome?, h1, h2, h3]

/-- Witness for C10 at a block whose only International-Tables-number tag
is `_symmetry.Int_Tables_number`: the stored value is ignored and the
default comes back. -/
theorem c10_it_number_alias_list_witness :
    get_cif_item ⟨[("_symmetry.Int_Tables_number", .scalar "19")], []⟩
      "_space_group_IT_number" (some (.scalar "fallback")) =
    some (.scalar "fallback") :=
  c10_it_number_alias_list.2 ⟨[("_symmetry.Int_Tables_number", .scalar "19")], []⟩
    (some (.scalar "fallback")) rfl rfl rfl

/-- C1 (the code as written, at the failing input): with no explicit
operator list, builders.py:161 tests `space_group is not None` before
consulting the International Tables number.  Consequently a block whose
only symmetry item is a valid IT number fails under `strict` with
"No symmetry instructions could be extracted" instead of building the
group, and when a Hall symbol has already succeeded the IT number is still
consulted and overrides it.  This contradicts the claimed (and
code-commented, builders.py:115-116) priority order. -/
theorem c1_it_number_fallback_code_eval :
    buildSymmetry demoLib blockOnlyITNumber true = .error .missingSymmetry
    ∧ resolveSpaceGroupFromSymbols demoLib (some (.scalar "P 2ac 2ab")) none
        (some (.scalar "19")) false = .ok (some (.ofNumber "19")) :=
  ⟨rfl, rfl⟩

/-- C2 (the code as written, at the failing input): with five of six
anisotropic B components present, builders.py:272 constructs
`CifBuilderError("Some ADP items are missing")` but never raises it, so ADP
resolution returns normally with the partial column set; and with a
partial U set and no B columns at all, the refetch as B components finds
all six absent and the case is silently skipped.  In neither case does
structure building fail as the claim requires. -/
theorem c2_incomplete_adp_code_eval :
    resolveAniso blockPartialB = .ok (.partialMissing true 1)
    ∧ resolveAniso blockPartialU = .ok .allMissing :=
  ⟨rfl, rfl⟩

/-- C4 counterexample: an integer-valued array classified as an intensity
observable is not promoted to a floating-point data channel — the
promotion guard (builders.py:544-545) tests the amplitude case twice and
the intensity case never. -/
theorem c4_intensity_not_promoted_counterexample :
    observationTypingStep "_refln.F_squared_meas" "" .intK =
      (some .intensity, .intK)
    ∧ (observationTypingStep "_refln.F_squared_meas" "" .intK).2 ≠ DataKind.realK :=
  ⟨rfl, by decide⟩

/-- C4 as amended: integer promotion happens exactly for arrays classified
as amplitudes; an array classified as an intensity keeps its integer data
channel. -/
theorem c4_amended_promotion_only_for_amplitudes :
    (∀ (key keySuffix : String),
      classifyObs (rstrip_substrings key
          [keySuffix, "_au", "_meas", "_calc", "_plus", "_minus"]) DataKind.intK
        = some ObsType.amplitude →
      observationTypingStep key keySuffix DataKind.intK
        = (some ObsType.amplitude, DataKind.realK))
    ∧ (∀ (key keySuffix : String),
      classifyObs (rstrip_substrings key
          [keySuffix, "_au", "_meas", "_calc", "_plus", "_minus"]) DataKind.intK
        = some ObsType.intensity →
      observationTypingStep key keySuffix DataKind.intK
        = (some ObsType.intensity, DataKind.intK))
    ∧ ∀ (obs : Option ObsType) (kind : DataKind),
        promotionStep obs kind =
          (if obs = some ObsType.amplitude ∧ kind = DataKind.intK
           then DataKind.realK else kind) := by
  refine ⟨?_, ?_, ?_⟩
  · intro key keySuffix h
    show obsAndPromote _ _ = _
    rw [h]
    rfl
  · intro key keySuffix h
    show obsAndPromote _ _ = _
    rw [h]
    rfl
  · intro obs kind
    cases obs with
    | none => cases kind <;> simp [promotionStep]
    | some t => cases t <;> cases kind <;> simp [promotionStep]

/-- Witness for the amended C4 at the two concrete labels: the
amplitude-typed integer array `_refln.F_meas_au` is promoted to a real
data channel, while the intensity-typed integer array
`_refln.F_squared_meas` keeps its integer channel. -/
theorem c4_amended_promotion_only_for_amplitudes_witness :
    observationTypingStep "_refln.F_meas_au" "" DataKind.intK
        = (some ObsType.amplitude, DataKind.realK)
    ∧ observationTypingStep "_refln.F_squared_meas" "" DataKind.intK
        = (some ObsType.intensity, DataKind.intK) :=
  ⟨c4_amended_promotion_only_for_amplitudes.1 "_refln.F_meas_au" "" (by decide),
   c4_amended_promotion_only_for_amplitudes.2.1 "_refln.F_squared_meas" "" (by decide)⟩

/-- C8 counterexample: the new strategy's value/sigma pairing
(builders.py:653-662) runs `set_sigmas` with no size check — a two-entry
data array is merged with a three-entry sigma column, no warning is
emitted, and nothing is skipped. -/
theorem c8_new_strategy_no_size_check_counterexample :
    arrTwoRows.data.length ≠ sigThreeRows.data.length
    ∧ newAttachSigmas arrTwoRows sigThreeRows
        "_refln.F_meas_au" "_refln.F_meas_sigma_au" "" =
      ({ arrTwoRows with
          sigmas := some sigThreeRows.data,
          labels := ["_refln.F_meas_au", "_refln.F_meas_sigma_au"] }, []) :=
  ⟨by decide, rfl⟩

/-- C8 as amended: only the classic strategy checks the paired sizes —
on a mismatch it skips the pairing and reports a warning naming both
column labels, and on matching sizes it attaches the sigma channel; the
new strategy attaches the sigma channel unconditionally and never warns. -/
theorem c8_amended_size_mismatch_policy :
    (∀ (base sig : MArray) (k sl : String),
      base.data.length ≠ sig.data.length →
        classicAttachSigmas base sig k sl = (none, [(k, sl)]))
    ∧ (∀ (base sig : MArray) (k sl : String),
      base.data.length = sig.data.length →
        classicAttachSigmas base sig k sl =
          (some { base with sigmas := some sig.data, labels := base.labels ++ [sl] }, []))
    ∧ (∀ (a s : MArray) (dl sl suf : String),
        (newAttachSigmas a s dl sl suf).2 = []
        ∧ (newAttachSigmas a s dl sl suf).1.sigmas = some s.data) := by
  refine ⟨?_, ?_, ?_⟩
  · intro base sig k sl h
    simp [classicAttachSigmas, check_array_sizes, h]
  · intro base sig k sl h
    simp [classicAttachSigmas, check_array_sizes, h]
  · intro a s dl sl suf
    constructor <;> rfl

/-- Witness for the amended C8: the classic strategy skips the
mismatched two/three-row pairing with a warning naming both labels,
attaches sigmas when the sizes agree, and the new strategy merges the same
mismatched pairing without a warning. -/
theorem c8_amended_size_mismatch_policy_witness :
    classicAttachSigmas arrTwoRows sigThreeRows
        "_refln.F_meas_au" "_refln.F_meas_sigma_au"
      = (none, [("_refln.F_meas_au", "_refln.F_meas_sigma_au")])
    ∧ classicAttachSigmas sigThreeRows sigThreeRows "k" "sl"
      = (some { sigThreeRows with
            sigmas := some sigThreeRows.data,
            labels := sigThreeRows.labels ++ ["sl"] }, [])
    ∧ (newAttachSigmas arrTwoRows sigThreeRows "d" "s" "").2 = [] :=
  ⟨c8_amended_size_mismatch_policy.1 arrTwoRows sigThreeRows
      "_refln.F_meas_au" "_refln.F_meas_sigma_au" (by decide),
   c8_amended_size_mismatch_policy.2.1 sigThreeRows sigThreeRows "k" "sl" rfl,
   (c8_amended_size_mismatch_policy.2.2 arrTwoRows sigThreeRows "d" "s" "").1⟩

/-- A merge-loop iteration whose key has no surviving counterpart pair
leaves the collection unchanged. -/
theorem mergeOneG_noop (cond : String → Bool)
    (pm : String → Option (String × String)) (c : Coll) (k : String)
    (h : noSurvivingPairB pm c k = true) : mergeOneG cond pm c k = c := by
  unfold mergeOneG
  unfold noSurvivingPairB at h
  cases hcond : cond k with
  | false => simp
  | true =>
    simp only [if_true]
    cases hpm : pm k with
    | none => simp
    | some pr =>
      obtain ⟨pk, mk⟩ := pr
      rw [hpm] at h
      simp only [] at h ⊢
      cases hp : lookupAssoc c pk with
      | none => simp [hp]
      | some pa =>
        cases hm : lookupAssoc c mk with
        | none => simp [hp, hm]
        | some ma =>
          rw [hp, hm] at h
          simp at h

/-- Folding merge iterations whose keys all lack surviving counterparts is
the identity. -/
theorem mergeFold_noop (cond : String → Bool)
    (pm : String → Option (String × String)) (c : Coll) :
    ∀ ks : List String, (∀ k ∈ ks, noSurvivingPairB pm c k = true) →
      ks.foldl (mergeOneG cond pm) c = c := by
  intro ks
  induction ks with
  | nil => intro _; rfl
  | cons k t ih =>
    intro h
    have hk := h k (by simp)
    have ht : ∀ k' ∈ t, noSurvivingPairB pm c k' = true :=
      fun k' hk' => h k' (by simp [hk'])
    simp only [List.foldl_cons]
    rw [mergeOneG_noop cond pm c k hk]
    exact ih ht

/-- C9: both anomalous-pair merge passes are idempotent — over a
collection in which no key still has a surviving plus/minus counterpart
(every pair already combined), re-running the merge is a no-op, for the
classic pass and for the new-strategy pass alike. -/
theorem c9_anomalous_merge_idempotent :
    ∀ c : Coll,
      ((∀ k ∈ c.map Prod.fst, noSurvivingPairB pmKeysClassic c k = true) →
        mergeClassic c = c)
      ∧ ((∀ k ∈ c.map Prod.fst, noSurvivingPairB pmKeysNew c k = true) →
        mergeNew c = c) := by
  intro c
  constructor
  · intro h
    exact mergeFold_noop classicCond pmKeysClassic c (c.map Prod.fst) h
  · intro h
    exact mergeFold_noop newCond pmKeysNew c (c.map Prod.fst) h

/-- Witness for C9 on the already-merged Scenario-D collection: both merge
passes leave it unchanged. -/
theorem c9_anomalous_merge_idempotent_witness :
    mergeClassic mergedCollD = mergedCollD ∧ mergeNew mergedCollD = mergedCollD :=
  ⟨(c9_anomalous_merge_idempotent mergedCollD).1 (by decide),
   (c9_anomalous_merge_idempotent mergedCollD).2 (by decide)⟩

/-- A key absent from every pair of a list is not found by `lookupAssoc`. -/
theorem lookupAssoc_eq_none {α : Type} (l : List (String × α)) (k : String)
    (h : ∀ p ∈ l, p.1 ≠ k) : lookupAssoc l k = none := by
  induction l with
  | nil => rfl
  | cons p t ih =>
    obtain ⟨k', v⟩ := p
    have hk' : k' ≠ k := h (k', v) (by simp)
    simp only [lookupAssoc, beq_false_of_ne hk']
    exact ih (fun q hq => h q (by simp [hq]))

/-- Association lookup skips a front segment that misses the key. -/
theorem lookupAssoc_append_right {α : Type} (xs ys : List (String × α)) (k : String)
    (h : lookupAssoc xs k = none) :
    lookupAssoc (xs ++ ys) k = lookupAssoc ys k := by
  induction xs with
  | nil => rfl
  | cons p t ih =>
    obtain ⟨k', v⟩ := p
    by_cases hk : k' == k
    · simp [lookupAssoc, hk] at h
    · simp only [lookupAssoc, hk, List.cons_append, if_false, Bool.false_eq_true] at h ⊢
      exact ih h

/-- Removing a key distributes past a front segment that misses it. -/
theorem removeKey_append_right (xs ys : Coll) (k : String)
    (h : lookupAssoc xs k = none) :
    removeKey (xs ++ ys) k = xs ++ removeKey ys k := by
  induction xs with
  | nil => rfl
  | cons p t ih =>
    obtain ⟨k', v⟩ := p
    by_cases hk : k' == k
    · simp [lookupAssoc, hk] at h
    · simp only [lookupAssoc, hk, if_false, Bool.false_eq_true] at h
      simp only [List.cons_append, removeKey, hk, if_false, Bool.false_eq_true]
      exact congrArg (List.cons (k', v)) (ih h)

/-- A merge-loop iteration at a key the filter rejects is a no-op. -/
theorem mergeOneG_condFalse (cond : String → Bool)
    (pm : String → Option (String × String)) (acc : Coll) (k : String)
    (h : cond k = false) : mergeOneG cond pm acc k = acc := by
  unfold mergeOneG
  simp [h]

/-- Folding merge iterations over keys the filter rejects is the identity. -/
theorem mergeFold_condFalse (cond : String → Bool)
    (pm : String → Option (String × String)) (ks : List String)
    (h : ∀ k ∈ ks, cond k = false) :
    ∀ acc : Coll, ks.foldl (mergeOneG cond pm) acc = acc := by
  induction ks with
  | nil => intro _; rfl
  | cons k t ih =>
    intro acc
    simp only [List.foldl_cons]
    rw [mergeOneG_condFalse cond pm acc k (h k (by simp))]
    exact ih (fun k' hk' => h k' (by simp [hk'])) acc

/-- C5: whenever the classic collection holds an array under a
plus-marked key and another under the matching minus-marked key (all other
entries being keys the merge filter ignores), the merge pass removes the
pair and appends a single combined array stored under the plus key: it is
flagged anomalous, its entry count is the sum of the two members' entry
counts, the minus-side indices are negated, and its provenance labels
are the order-preserving duplicate-free union of both sides' labels. -/
theorem c5_anomalous_pair_merge
    (pre mid post : Coll) (kp km : String) (A B : MArray)
    (hother : ∀ p ∈ pre ++ mid ++ post,
      classicCond p.1 = false ∧ p.1 ≠ kp ∧ p.1 ≠ km)
    (h1 : strEndsWith kp "_plus" = true)
    (h2 : strContains kp "_minus" = false)
    (h3 : strContains kp "_plus" = true)
    (h7 : strEndsWith kp "_minus" = false)
    (h8 : strContains kp "_minus_" = false)
    (hkm : strReplace kp "_plus" "_minus" = km)
    (h4 : strContains km "_minus" = true)
    (h5 : strReplace km "_minus" "_plus" = kp) :
    mergeClassic (pre ++ [(kp, A)] ++ mid ++ [(km, B)] ++ post)
      = pre ++ mid ++ post ++ [(kp, mergeArrays A B)]
    ∧ (mergeArrays A B).anomalous = true
    ∧ (mergeArrays A B).data.length = A.data.length + B.data.length
    ∧ (mergeArrays A B).indices = A.indices ++ B.indices.map negIdx
    ∧ (mergeArrays A B).labels = orderedSet (A.labels ++ B.labels) := by
  have hne : kp ≠ km := by
    intro he
    rw [← he] at h4
    rw [h2] at h4
    exact Bool.false_ne_true h4
  have hpre : ∀ p ∈ pre, classicCond p.1 = false ∧ p.1 ≠ kp ∧ p.1 ≠ km :=
    fun p hp => hother p (by simp [hp])
  have hmid : ∀ p ∈ mid, classicCond p.1 = false ∧ p.1 ≠ kp ∧ p.1 ≠ km :=
    fun p hp => hother p (by simp [hp])
  have hpost : ∀ p ∈ post, classicCond p.1 = false ∧ p.1 ≠ kp ∧ p.1 ≠ km :=
    fun p hp => hother p (by simp [hp])
  refine ⟨?_, rfl, by simp [mergeArrays], rfl, rfl⟩
  unfold mergeClassic mergeStepG
  have hcond : classicCond kp = true := by
    unfold classicCond
    rw [h7, h8, h1]
    simp
  have hpm : pmKeysClassic kp = some (kp, km) := by
    unfold pmKeysClassic
    rw [h2, h3, hkm]
    simp
  have hLpre : lookupAssoc pre kp = none :=
    lookupAssoc_eq_none pre kp (fun p hp => (hpre p hp).2.1)
  have hLpreM : lookupAssoc pre km = none :=
    lookupAssoc_eq_none pre km (fun p hp => (hpre p hp).2.2)
  have hLmid : lookupAssoc mid kp = none :=
    lookupAssoc_eq_none mid kp (fun p hp => (hmid p hp).2.1)
  have hLmidM : lookupAssoc mid km = none :=
    lookupAssoc_eq_none mid km (fun p hp => (hmid p hp).2.2)
  have hLpostK : lookupAssoc post kp = none :=
    lookupAssoc_eq_none post kp (fun p hp => (hpost p hp).2.1)
  have hLpostM : lookupAssoc post km = none :=
    lookupAssoc_eq_none post km (fun p hp => (hpost p hp).2.2)
  set coll0 : Coll := pre ++ [(kp, A)] ++ mid ++ [(km, B)] ++ post with hcoll0
  have hkeys : coll0.map Prod.fst
      = (((pre.map Prod.fst ++ [kp]) ++ mid.map Prod.fst) ++ [km])
          ++ post.map Prod.fst := by
    simp [hcoll0]
  have hLk : lookupAssoc coll0 kp = some A := by
    rw [hcoll0]
    rw [show pre ++ [(kp, A)] ++ mid ++ [(km, B)] ++ post
        = pre ++ ((kp, A) :: (mid ++ [(km, B)] ++ post)) by simp]
    rw [lookupAssoc_append_right _ _ _ hLpre]
    simp [lookupAssoc]
  have hLm : lookupAssoc coll0 km = some B := by
    rw [hcoll0]
    rw [show pre ++ [(kp, A)] ++ mid ++ [(km, B)] ++ post
        = pre ++ ((kp, A) :: (mid ++ ((km, B) :: post))) by simp]
    rw [lookupAssoc_append_right _ _ _ hLpreM]
    simp only [lookupAssoc, beq_false_of_ne hne, if_false, Bool.false_eq_true]
    rw [lookupAssoc_append_right _ _ _ hLmidM]
    simp [lookupAssoc]
  have hstep1 : mergeOneG classicCond pmKeysClassic coll0 kp
      = pre ++ mid ++ post ++ [(kp, mergeArrays A B)] := by
    unfold mergeOneG
    rw [hcond, hpm]
    simp only [if_true]
    rw [hLk, hLm]
    have hrem1 : removeKey coll0 kp = pre ++ mid ++ [(km, B)] ++ post := by
      rw [hcoll0]
      rw [show pre ++ [(kp, A)] ++ mid ++ [(km, B)] ++ post
          = pre ++ ((kp, A) :: (mid ++ [(km, B)] ++ post)) by simp]
      rw [removeKey_append_right _ _ _ hLpre]
      simp [removeKey]
    have hrem2 : removeKey (pre ++ mid ++ [(km, B)] ++ post) km
        = pre ++ mid ++ post := by
      rw [show pre ++ mid ++ [(km, B)] ++ post
          = (pre ++ mid) ++ ((km, B) :: post) by simp]
      have hLpm : lookupAssoc (pre ++ mid) km = none := by
        rw [lookupAssoc_append_right _ _ _ hLpreM]
        exact hLmidM
      rw [removeKey_append_right _ _ _ hLpm]
      simp [removeKey]
    rw [hrem1, hrem2]
    unfold setdefault
    have hLfinal : lookupAssoc (pre ++ mid ++ post) kp = none := by
      rw [show pre ++ mid ++ post = pre ++ (mid ++ post) by simp]
      rw [lookupAssoc_append_right _ _ _ hLpre]
      rw [lookupAssoc_append_right _ _ _ hLmid]
      exact hLpostK
    rw [hLfinal]
    simp
  have hstep2 : ∀ acc : Coll, lookupAssoc acc km = none →
      mergeOneG classicCond pmKeysClassic acc km = acc := by
    intro acc hacc
    unfold mergeOneG
    cases hc : classicCond km with
    | false => simp
    | true =>
      simp only [if_true]
      have hpm2 : pmKeysClassic km = some (kp, km) := by
        unfold pmKeysClassic
        rw [h4, h5]
        simp
      rw [hpm2]
      simp only []
      rw [hacc]
      cases lookupAssoc acc kp <;> simp
  rw [hkeys]
  rw [List.foldl_append, List.foldl_append, List.foldl_append, List.foldl_append]
  rw [mergeFold_condFalse classicCond pmKeysClassic (pre.map Prod.fst)
    (by
      intro k hk
      obtain ⟨p, hp, hpk⟩ := List.mem_map.mp hk
      exact hpk ▸ (hpre p hp).1) coll0]
  simp only [List.foldl_cons, List.foldl_nil]
  rw [hstep1]
  rw [mergeFold_condFalse classicCond pmKeysClassic (mid.map Prod.fst)
    (by
      intro k hk
      obtain ⟨p, hp, hpk⟩ := List.mem_map.mp hk
      exact hpk ▸ (hmid p hp).1) _]
  rw [hstep2 (pre ++ mid ++ post ++ [(kp, mergeArrays A B)])
    (by
      rw [show pre ++ mid ++ post ++ [(kp, mergeArrays A B)]
          = pre ++ (mid ++ (post ++ [(kp, mergeArrays A B)])) by simp]
      rw [lookupAssoc_append_right _ _ _ hLpreM]
      rw [lookupAssoc_append_right _ _ _ hLmidM]
      rw [lookupAssoc_append_right _ _ _ hLpostM]
      simp [lookupAssoc, beq_false_of_ne hne])]
  exact mergeFold_condFalse classicCond pmKeysClassic (post.map Prod.fst)
    (by
      intro k hk
      obtain ⟨p, hp, hpk⟩ := List.mem_map.mp hk
      exact hpk ▸ (hpost p hp).1) _

/-- Witness for C5 at Scenario D: two 3-row arrays under
`_refln.pdbx_F_plus` / `_refln.pdbx_F_minus` merge into one anomalous
6-entry array with the minus-side indices negated. -/
theorem c5_anomalous_pair_merge_witness :
    mergeClassic [("_refln.pdbx_F_plus", arrPlusD), ("_refln.pdbx_F_minus", arrMinusD)]
      = [("_refln.pdbx_F_plus", mergeArrays arrPlusD arrMinusD)]
    ∧ (mergeArrays arrPlusD arrMinusD).data.length = 6
    ∧ (mergeArrays arrPlusD arrMinusD).anomalous = true
    ∧ (mergeArrays arrPlusD arrMinusD).indices
      = [⟨1, 0, 0⟩, ⟨2, 0, 0⟩, ⟨3, 0, 0⟩, ⟨-1, 0, 0⟩, ⟨-2, 0, 0⟩, ⟨-3, 0, 0⟩] :=
  ⟨(c5_anomalous_pair_merge [] [] [] "_refln.pdbx_F_plus" "_refln.pdbx_F_minus"
      arrPlusD arrMinusD (by simp) (by decide) (by decide) (by decide) (by decide)
      (by decide) (by decide) (by decide) (by decide)).1,
   by decide, by decide, by decide⟩

/-- When no length tag resolves to a loop column, the length check passes. -/
theorem checkedLengths_ok (b : Block)
    (h1 : isLoopColumn (get_cif_item b "_cell_length_a" none) = false)
    (h2 : isLoopColumn (get_cif_item b "_cell_length_b" none) = false)
    (h3 : isLoopColumn (get_cif_item b "_cell_length_c" none) = false) :
    checkedLengths b = .ok [get_cif_item b "_cell_length_a" none,
      get_cif_item b "_cell_length_b" none, get_cif_item b "_cell_length_c" none] := by
  simp [checkedLengths, h1, h2, h3]

/-- When an angle tag does not resolve to a loop column, its resolution
succeeds with the `"?"`-defaulted value. -/
theorem angleResolve_ok (b : Block) (tag : String)
    (h : isLoopColumn (get_cif_item b tag none) = false) :
    angleResolve b tag = .ok (angleValue (get_cif_item b tag none)) := by
  simp [angleResolve, h]

/-- When one of the six cell-parameter tags resolves to a loop column, the
cell-item resolution fails naming the first such tag. -/
theorem cellItems_error_of_firstColumn (b : Block) (t : String)
    (hcol : firstColumnCellTag b = some t) :
    cellItems b = .error (.malformedCellParameter t) := by
  unfold firstColumnCellTag cellTags at hcol
  by_cases h1 : isLoopColumn (get_cif_item b "_cell_length_a" none) = true
  · simp only [List.find?_cons, h1, Option.some.injEq] at hcol
    subst hcol
    simp [cellItems, checkedLengths, h1]
  replace h1 : isLoopColumn (get_cif_item b "_cell_length_a" none) = false := by
    simpa using h1
  simp only [List.find?_cons, h1] at hcol
  by_cases h2 : isLoopColumn (get_cif_item b "_cell_length_b" none) = true
  · simp only [List.find?_cons, h2, Option.some.injEq] at hcol
    subst hcol
    simp [cellItems, checkedLengths, h1, h2]
  replace h2 : isLoopColumn (get_cif_item b "_cell_length_b" none) = false := by
    simpa using h2
  simp only [List.find?_cons, h2] at hcol
  by_cases h3 : isLoopColumn (get_cif_item b "_cell_length_c" none) = true
  · simp only [List.find?_cons, h3, Option.some.injEq] at hcol
    subst hcol
    simp [cellItems, checkedLengths, h1, h2, h3]
  replace h3 : isLoopColumn (get_cif_item b "_cell_length_c" none) = false := by
    simpa using h3
  simp only [List.find?_cons, h3] at hcol
  by_cases h4 : isLoopColumn (get_cif_item b "_cell_angle_alpha" none) = true
  · simp only [List.find?_cons, h4, Option.some.injEq] at hcol
    subst hcol
    unfold cellItems
    rw [checkedLengths_ok b h1 h2 h3]
    simp [angleResolve, h4]
  replace h4 : isLoopColumn (get_cif_item b "_cell_angle_alpha" none) = false := by
    simpa using h4
  simp only [List.find?_cons, h4] at hcol
  by_cases h5 : isLoopColumn (get_cif_item b "_cell_angle_beta" none) = true
  · simp only [List.find?_cons, h5, Option.some.injEq] at hcol
    subst hcol
    unfold cellItems
    rw [checkedLengths_ok b h1 h2 h3, angleResolve_ok b _ h4]
    simp [angleResolve, h5]
  replace h5 : isLoopColumn (get_cif_item b "_cell_angle_beta" none) = false := by
    simpa using h5
  simp only [List.find?_cons, h5] at hcol
  by_cases h6 : isLoopColumn (get_cif_item b "_cell_angle_gamma" none) = true
  · simp only [List.find?_cons, h6, Option.some.injEq] at hcol
    subst hcol
    unfold cellItems
    rw [checkedLengths_ok b h1 h2 h3, angleResolve_ok b _ h4, angleResolve_ok b _ h5]
    simp [angleResolve, h6]
  replace h6 : isLoopColumn (get_cif_item b "_cell_angle_gamma" none) = false := by
    simpa using h6
  simp only [List.find?_cons, h6, List.find?_nil] at hcol
  exact absurd hcol (by simp)

/-- C7: for every block in which some cell parameter is declared as a loop
column, provided the space-group stage itself returns (so the cell stage
is reached), `build_symmetry` fails with the malformed-cell-parameter
error naming the first such parameter — regardless of the numeric content
of the column. -/
theorem c7_loop_column_cell_parameter (lib : SgLib) (b : Block) (strict : Bool)
    (sg : Option SpaceGroup) (t : String)
    (hsg : spaceGroupStage lib b strict = .ok sg)
    (hcol : firstColumnCellTag b = some t) :
    buildSymmetry lib b strict = .error (.malformedCellParameter t) := by
  have hcell := cellItems_error_of_firstColumn b t hcol
  unfold buildSymmetry
  rw [hsg]
  simp only []
  unfold resolveCell
  rw [hcell]

/-- Witness for C7: a block whose `_cell_length_b` is declared as a loop
column (with perfectly numeric values) makes `build_symmetry` fail naming
`_cell_length_b`. -/
theorem c7_loop_column_cell_parameter_witness :
    buildSymmetry demoLib blockColumnCell false
      = .error (.malformedCellParameter "_cell_length_b") :=
  c7_loop_column_cell_parameter demoLib blockColumnCell false none
    "_cell_length_b" rfl rfl

/-- C6: cell-parameter resolution has exactly three legal outcomes.  Given
the resolved six-item list (no tag a loop column, `"?"` angles already
defaulted): all six absent gives a null cell, fatal under strict; all six
present parses them as floats — any parenthesized uncertainty suffix being
discarded by `float_from_string`, as the final conjunct shows on
`"12.5(3)"` parsing exactly as `"12.5"` — and an invalid metric is fatal; some-but-not-all present
with a known space group infers the cell from the group; and a partial
cell with no space group fails with the incomplete-cell error. -/
theorem c6_cell_trichotomy (lib : SgLib) (b : Block) (strict : Bool)
    (sg : Option SpaceGroup) (items : List (Option CifValue))
    (h : cellItems b = .ok items) :
    (items.count none = 6 →
      resolveCell lib b strict sg
        = if strict then .error .missingCell else .ok none)
    ∧ (items.count none = 0 →
      resolveCell lib b strict sg =
        match items.mapM parseItem with
        | none => .error .invalidCellParameters
        | some vals =>
          match lib.mkUnitCell vals with
          | none => .error .invalidUnitCell
          | some c => .ok (some c))
    ∧ (0 < items.count none → items.count none < 6 → ∀ g, sg = some g →
      resolveCell lib b strict sg =
        match (items.filterMap id).mapM (fun v => parseItem (some v)) with
        | none => .error .uncaughtValueError
        | some vals =>
          match lib.inferCell vals g with
          | none => .error .uncaughtInferError
          | some c => .ok (some c))
    ∧ (0 < items.count none → items.count none < 6 → sg = none →
      resolveCell lib b strict sg = .error .incompleteCell)
    ∧ float_from_string "12.5(3)" = parseDecimal "12.5" := by
  refine ⟨?_, ?_, ?_, ?_, rfl⟩
  · intro h6
    unfold resolveCell
    rw [h]
    simp only []
    rw [h6]
    simp
  · intro h0
    unfold resolveCell
    rw [h]
    simp only []
    rw [h0]
    simp
  · intro hgt hlt g hg
    subst hg
    unfold resolveCell
    rw [h]
    simp only []
    have hb6 : (items.count none == 6) = false := beq_false_of_ne (by omega)
    have hb0 : (items.count none == 0) = false := beq_false_of_ne (by omega)
    rw [hb6, hb0]
    simp
  · intro hgt hlt hg
    subst hg
    unfold resolveCell
    rw [h]
    simp only []
    have hb6 : (items.count none == 6) = false := beq_false_of_ne (by omega)
    have hb0 : (items.count none == 0) = false := beq_false_of_ne (by omega)
    rw [hb6, hb0]
    simp

/-- Witness for C6 at the three cell configurations: the empty block fails
under strict, the full cell parses, the partial cell is inferred when a
space group is known and rejected when not. -/
theorem c6_cell_trichotomy_witness :
    resolveCell demoLib ⟨[], []⟩ true none = .error .missingCell
    ∧ resolveCell demoLib blockFullCell false none
      = .ok (some ⟨[⟨10, 0⟩, ⟨11, 0⟩, ⟨12, 0⟩, ⟨90, 0⟩, ⟨91, 0⟩, ⟨92, 0⟩]⟩)
    ∧ resolveCell demoLib blockPartialCell false (some (.ofHall "P1"))
      = .ok (some ⟨[⟨10, 0⟩]⟩)
    ∧ resolveCell demoLib blockPartialCell false none = .error .incompleteCell := by
  refine ⟨?_, ?_, ?_, ?_⟩
  · have h := (c6_cell_trichotomy demoLib ⟨[], []⟩ true none _ rfl).1 (by decide)
    simpa using h
  · have h := (c6_cell_trichotomy demoLib blockFullCell false none _ rfl).2.1 (by decide)
    exact h.trans rfl
  · have h := (c6_cell_trichotomy demoLib blockPartialCell false
        (some (.ofHall "P1")) _ rfl).2.2.1 (by decide) (by decide) (.ofHall "P1") rfl
    exact h.trans rfl
  · exact (c6_cell_trichotomy demoLib blockPartialCell false none _ rfl).2.2.2.1
      (by decide) (by decide) rfl

end CifB
